import Mathlib

/-!
Shallow embedding of the valyq validation frontend
(`validation_frontend/src/components/FormComponent.js`,
`validation_frontend/src/components/TestConversation` in
`TestResultRenderer.js`, `ui/file-input.jsx`) and of the prompt
template `independent_test_template` from `templates.yaml`.

JavaScript objects become Lean structures; fields that may be
`undefined`/`null` become `Option`; JavaScript string truthiness
(`undefined`, `null` and `""` are falsy) is modelled by `jsTruthy`.
-/

namespace Valyq

/-- JS truthiness of an optional string: `undefined`/`null` and `""` are falsy. -/
def jsTruthy (v : Option String) : Bool :=
  match v with
  | some s => !(s == "")
  | none => false

/-- JS `v || d` for an optional string `v`: yields `d` when `v` is falsy. -/
def jsOr (v : Option String) (d : String) : String :=
  match v with
  | some s => if s == "" then d else s
  | none => d

/-- JS `String.prototype.trim`, modelled over the character list. -/
def jsTrim (s : String) : String :=
  String.mk (((s.data.dropWhile Char.isWhitespace).reverse.dropWhile
    Char.isWhitespace).reverse)

/-- A conversation message `{role, content}`. -/
structure Message where
  role : String
  content : String
deriving DecidableEq, Repr

/-- A conversation `{messages: [...]}`. -/
structure Conversation where
  messages : List Message
deriving DecidableEq, Repr

/-- A result entry `{filename, content}`. -/
structure ResultEntry where
  filename : String
  content : String
deriving DecidableEq, Repr

/-- An entry of the `customTests` React state in `FormComponent`.
`id` is the local id; `test_id` is the backend-assigned id, absent
until the first successful execution. Fields that a freshly added
test leaves `undefined` are `Option`-typed. -/
structure Test where
  id : Nat
  test_id : Option String
  title : String
  description : String
  prompt : String
  results : Option (List ResultEntry)
  testCode : String
  conversation : Option Conversation
  isProcessing : Bool
  error : String
deriving DecidableEq, Repr

/-- The JSON body assembled by `handleTestSubmit` for `POST /execute-test`.
`test_id` is unconditionally assigned (`test.test_id || testId`), so the
field is not optional; `description` and `follow_up_message` are added
conditionally. -/
structure ExecuteTestRequest where
  validation_id : String
  test_id : String
  description : Option String
  follow_up_message : Option String
deriving DecidableEq, Repr

/-- `handleTestSubmit`'s request-body construction (FormComponent.js
lines 277-290): `test_id: test.test_id || testId`; `description` only
when `!test.test_id`; `follow_up_message` only when truthy. -/
def buildExecuteTestRequest (validationId : String) (t : Test)
    (followUpMessage : Option String) : ExecuteTestRequest :=
  { validation_id := validationId
    test_id := jsOr t.test_id (toString t.id)
    description := if jsTruthy t.test_id then none else some t.description
    follow_up_message := if jsTruthy followUpMessage then followUpMessage else none }

/-- A freshly added test, never yet submitted: concrete instance used to
exhibit the shape of an initial `/execute-test` request body. -/
def freshTest : Test :=
  { id := 3
    test_id := none
    title := "Custom Test 3"
    description := "Check data quality of the inputs"
    prompt := ""
    results := none
    testCode := ""
    conversation := none
    isProcessing := false
    error := "" }

/-- The successful `/execute-test` response consumed by `handleTestSubmit`. -/
structure ExecResult where
  test_id : String
  results : List ResultEntry
  testCode : String
  conversation : Conversation
deriving DecidableEq, Repr

/-- Per-element update applied by `handleTestSubmit` before the fetch:
`t.id === testId ? { ...t, isProcessing: true, error: '' } : t`. -/
def startStep (testId : Nat) (t : Test) : Test :=
  if t.id = testId then { t with isProcessing := true, error := "" } else t

/-- Per-element update applied by `handleTestSubmit` on a successful
response (FormComponent.js lines 308-322). -/
def successStep (testId : Nat) (r : ExecResult) (t : Test) : Test :=
  if t.id = testId then
    { t with
      test_id := some r.test_id
      results := some r.results
      testCode := r.testCode
      conversation := some r.conversation
      isProcessing := false
      error := "" }
  else t

/-- Per-element update applied by `handleTestSubmit`'s catch block
(FormComponent.js lines 325-327). -/
def errorStep (testId : Nat) (msg : String) (t : Test) : Test :=
  if t.id = testId then { t with error := msg, isProcessing := false } else t

/-- `setCustomTests(prev => prev.map(...))` with the in-flight marker. -/
def applyTestStart (tests : List Test) (testId : Nat) : List Test :=
  tests.map (startStep testId)

/-- `setCustomTests(prev => prev.map(...))` on the success path. -/
def applyTestSuccess (tests : List Test) (testId : Nat) (r : ExecResult) :
    List Test :=
  tests.map (successStep testId r)

/-- `setCustomTests(prev => prev.map(...))` on the error path. -/
def applyTestError (tests : List Test) (testId : Nat) (msg : String) :
    List Test :=
  tests.map (errorStep testId msg)

/-- The net `customTests` update of a `handleTestSubmit` call whose fetch
fails or returns non-ok: first the start update, then the catch update. -/
def handleTestSubmitFailed (tests : List Test) (testId : Nat) (msg : String) :
    List Test :=
  applyTestError (applyTestStart tests testId) testId msg

/-- The net `customTests` update of a successful `handleTestSubmit` call:
first the start update, then the success update. -/
def handleTestSubmitOk (tests : List Test) (testId : Nat) (r : ExecResult) :
    List Test :=
  applyTestSuccess (applyTestStart tests testId) testId r

/-- `handleDeleteTest`'s request URL (FormComponent.js line 117). -/
def deleteTestUrl (validationId testId : String) : String :=
  "/test/" ++ validationId ++ "/" ++ testId

/-- Outcome of `handleDeleteTest` on the `customTests` list and the
error/status banners. -/
structure DeleteOutcome where
  tests : List Test
  error : Option String
  status : Option String
deriving DecidableEq, Repr

/-- `handleDeleteTest` (FormComponent.js lines 113-140): on an ok response
the list is filtered by `test.test_id !== testId` and a status message is
shown; on a non-ok response the catch block only sets the error banner. -/
def handleDeleteTest (tests : List Test) (testId : String) (ok : Bool)
    (httpStatus : Nat) : DeleteOutcome :=
  if ok then
    { tests := tests.filter (fun t => t.test_id ≠ some testId)
      error := none
      status := some "Test deleted successfully" }
  else
    { tests := tests
      error := some ("Error deleting test: HTTP error! status: " ++
        toString httpStatus)
      status := none }

/-- `disabled={test.isProcessing || !test.description}` on the Run Test
button (FormComponent.js line 414). -/
def runTestButtonDisabled (t : Test) : Bool :=
  t.isProcessing || (t.description == "")

/-- `disabled={!followUpMessage.trim() || submitting}` on the Send
Follow-up button (TestConversation, TestResultRenderer.js line 294). -/
def followUpSubmitDisabled (followUpMessage : String) (submitting : Bool) :
    Bool :=
  (jsTrim followUpMessage == "") || submitting

/-- Local state of the follow-up form in `TestConversation`. -/
structure FollowUpFormState where
  followUpMessage : String
  submitting : Bool
deriving DecidableEq, Repr

/-- `TestConversation.handleSubmit`: returns the message sent upstream (if
any) and the form state once the handler settles. An empty trimmed message
returns before any request; the input is cleared only on success; the
finally block clears `submitting`. -/
def handleFollowUpSubmit (st : FollowUpFormState) (succeeds : Bool) :
    Option String × FollowUpFormState :=
  if jsTrim st.followUpMessage == "" then (none, st)
  else
    let messageToSend := jsTrim st.followUpMessage
    if succeeds then
      (some messageToSend, { followUpMessage := "", submitting := false })
    else
      (some messageToSend, { st with submitting := false })

/-- Disabled flags of the button and hidden input rendered by `FileInput`
(`ui/file-input.jsx`): both receive the `disabled` prop unchanged. -/
structure FileInputRender where
  buttonDisabled : Bool
  inputDisabled : Bool
deriving DecidableEq, Repr

/-- `FileInput` forwards its `disabled` prop to the button and the input. -/
def renderFileInput (disabled : Bool) : FileInputRender :=
  { buttonDisabled := disabled, inputDisabled := disabled }

/-- Disabled state of the five artifact inputs and the submit button of the
create-validation form. -/
structure MainFormRender where
  documentationInput : FileInputRender
  trainingScriptInput : FileInputRender
  trainedModelInput : FileInputRender
  trainingDatasetInput : FileInputRender
  testDatasetInput : FileInputRender
  submitDisabled : Bool
deriving DecidableEq, Repr

/-- The create-validation form (FormComponent.js lines 524-592): every
`FileInput` gets `disabled={validationId}` and the submit button
`disabled={isCreating || validationId}`. -/
def renderMainForm (validationId : Option String) (isCreating : Bool) :
    MainFormRender :=
  { documentationInput := renderFileInput (jsTruthy validationId)
    trainingScriptInput := renderFileInput (jsTruthy validationId)
    trainedModelInput := renderFileInput (jsTruthy validationId)
    trainingDatasetInput := renderFileInput (jsTruthy validationId)
    testDatasetInput := renderFileInput (jsTruthy validationId)
    submitDisabled := isCreating || jsTruthy validationId }

/-- The `fileNames` React state: one display name per artifact kind. -/
structure FileNames where
  documentation : String
  trainingScript : String
  trainedModel : String
  trainingDataset : String
  testDataset : String
deriving DecidableEq, Repr

/-- The `fileNames` reset value used when the load response has no
`files` object. -/
def emptyFileNames : FileNames :=
  { documentation := ""
    trainingScript := ""
    trainedModel := ""
    trainingDataset := ""
    testDataset := "" }

/-- A stored test as returned by `GET /tests/{validation_id}`; every field
except `test_id` may be absent. -/
structure StoredTest where
  test_id : String
  title : Option String
  description : Option String
  prompt : Option String
  results : Option (List ResultEntry)
  code : Option String
  conversation : Option Conversation
deriving DecidableEq, Repr

/-- The `GET /load-validation/{id}` response consumed by
`handleLoadValidation`. -/
structure LoadValidationResult where
  validation_id : String
  execution_id : String
  files : Option FileNames
deriving DecidableEq, Repr

/-- The mapping applied to each stored test at position `index`
(FormComponent.js lines 184-197): local `id` is `index + 1`; `title`,
`description`, `prompt` and `code` fall back through JS `||`; `results`
and `conversation` fall back to an empty collection. `results` and
`conversation` are arrays/objects in JS, truthy even when empty, so their
fallbacks only fire when the field is absent. -/
def mapLoadedTest (index : Nat) (td : StoredTest) : Test :=
  { id := index + 1
    test_id := some td.test_id
    title := jsOr td.title ("Test " ++ td.test_id)
    description := jsOr td.description ""
    prompt := jsOr td.prompt ""
    results := some (td.results.getD [])
    testCode := jsOr td.code ""
    conversation := some (td.conversation.getD { messages := [] })
    isProcessing := false
    error := "" }

/-- Index-carrying map underlying `tests.map((testData, index) => ...)`. -/
def mapLoadedFrom (i : Nat) : List StoredTest → List Test
  | [] => []
  | td :: rest => mapLoadedTest i td :: mapLoadedFrom (i + 1) rest

/-- The `loadedTests` array built by `handleLoadValidation`. -/
def loadedTests (stored : List StoredTest) : List Test :=
  mapLoadedFrom 0 stored

/-- `Math.max(...loadedTests.map(t => t.id), 0)`. -/
def maxLoadedId (ts : List Test) : Nat :=
  (ts.map (fun t => t.id)).foldr max 0

/-- The slice of `FormComponent` React state that `handleLoadValidation`
reads and writes. -/
structure AppState where
  validationId : Option String
  executionId : Option String
  fileNames : FileNames
  customTests : List Test
  nextTestId : Nat
deriving DecidableEq, Repr

/-- `handleLoadValidation`'s state update on a successful pair of
responses (FormComponent.js lines 171-201): always overwrites the
validation id, execution id and file names; overwrites `customTests` and
`nextTestId` only when the loaded tests list is nonempty. -/
def applyLoadValidation (s : AppState) (vr : LoadValidationResult)
    (stored : List StoredTest) : AppState :=
  let s1 := { s with
    validationId := some vr.validation_id
    executionId := some vr.execution_id
    fileNames := vr.files.getD emptyFileNames }
  if stored.length > 0 then
    let loaded := loadedTests stored
    { s1 with
      customTests := loaded
      nextTestId := maxLoadedId loaded + 1 }
  else s1

/-- The record created by `addCustomTest` (FormComponent.js lines
256-262); fields the JS object omits are absent/empty. -/
def newCustomTest (n : Nat) : Test :=
  { id := n
    test_id := none
    title := "Custom Test " ++ toString n
    description := ""
    prompt := ""
    results := none
    testCode := ""
    conversation := none
    isProcessing := false
    error := "" }

/-- Per-element update of `handleTestTitleChange`. -/
def titleStep (testId : Nat) (v : String) (t : Test) : Test :=
  if t.id = testId then { t with title := v } else t

/-- Per-element update of `handleTestDescriptionChange`. -/
def descriptionStep (testId : Nat) (v : String) (t : Test) : Test :=
  if t.id = testId then { t with description := v } else t

/-- The `(customTests, nextTestId)` slice of the React state, whose
evolution determines local-id uniqueness. -/
structure TestListState where
  tests : List Test
  nextTestId : Nat
deriving DecidableEq, Repr

/-- One user-driven state transition of `(customTests, nextTestId)`, each
constructor mirroring one `setCustomTests`/`setNextTestId` site in
`FormComponent.js`. -/
inductive Step : TestListState → TestListState → Prop where
  | addCustomTest (s : TestListState) :
      Step s ⟨s.tests ++ [newCustomTest s.nextTestId], s.nextTestId + 1⟩
  | loadValidation (s : TestListState) (stored : List StoredTest)
      (h : stored ≠ []) :
      Step s ⟨loadedTests stored, maxLoadedId (loadedTests stored) + 1⟩
  | loadValidationEmpty (s : TestListState) : Step s s
  | deleteUnsaved (s : TestListState) (tid : Nat) :
      Step s ⟨s.tests.filter (fun t => t.id ≠ tid), s.nextTestId⟩
  | deleteSaved (s : TestListState) (tid : String) :
      Step s ⟨s.tests.filter (fun t => t.test_id ≠ some tid), s.nextTestId⟩
  | submitStart (s : TestListState) (tid : Nat) :
      Step s ⟨applyTestStart s.tests tid, s.nextTestId⟩
  | submitSuccess (s : TestListState) (tid : Nat) (r : ExecResult) :
      Step s ⟨applyTestSuccess s.tests tid r, s.nextTestId⟩
  | submitError (s : TestListState) (tid : Nat) (msg : String) :
      Step s ⟨applyTestError s.tests tid msg, s.nextTestId⟩
  | titleChange (s : TestListState) (tid : Nat) (v : String) :
      Step s ⟨s.tests.map (titleStep tid v), s.nextTestId⟩
  | descriptionChange (s : TestListState) (tid : Nat) (v : String) :
      Step s ⟨s.tests.map (descriptionStep tid v), s.nextTestId⟩

/-- States reachable from the initial React state
(`customTests = []`, `nextTestId = 1`). -/
inductive Reachable : TestListState → Prop where
  | init : Reachable ⟨[], 1⟩
  | step {s s' : TestListState} : Reachable s → Step s s' → Reachable s'

/-- `needle` occurs as a contiguous substring of `hay`, stated over the
underlying character lists. -/
def strOccurs (needle hay : String) : Prop :=
  ∃ pre suf : List Char, hay.data = pre ++ needle.data ++ suf

/-- Criterion 1 of `independent_test_template`. -/
def ittFolderLine (test_folder : String) : String :=
  "The code should create the folder " ++ test_folder ++
    " to save all the outputs"

/-- Criterion 4 of `independent_test_template`. -/
def ittErrorLine : String :=
  "Do proper error handling to not interrupt the execution"

/-- The first part of criterion 5 of `independent_test_template`. -/
def ittReportLine (test_folder : String) : String :=
  "Generate a report with Markdown called report.md, containing the results, visualizations and save it \n   inside "
    ++ test_folder

/-- Criterion 7 of `independent_test_template`. -/
def ittSnippetLine : String :=
  "All the code should be inside one single snippet of Python code"

/-- Criterion 8 of `independent_test_template`. -/
def ittFenceLine : String :=
  "All the code should be between ```python and ```"

/-- Criterion 9 of `independent_test_template`. -/
def ittNoFenceLine : String :=
  "Never use ``` inside the code"

/-- The `independent_test_template` of `templates.yaml`, rendered with its
eight substitution variables. The concatenation reproduces the YAML block
scalar byte for byte (including trailing spaces before line breaks and the
final newline). -/
def independent_test_template (documentation code train test pickle
    test_title test_description test_folder : String) : String :=
  "If you have a model " ++ documentation ++ " " ++ code ++ " " ++ train ++
    " " ++ test ++ " " ++ pickle ++ ", implement a Python test " ++
    test_title ++ ", \ndescribed as " ++ test_description ++
    ".\n\nI want you to generate a self contained Python script that will be executed using the exec function in another Python process. All the code has to be in one block and has to contain a call to execute the test.\n\nPlease ensure the code meets the following criteria:\n\n1: "
    ++ ittFolderLine test_folder ++
    "\n2: Generate visualizations when possible and save them inside " ++
    test_folder ++
    ". Add titles to the axis and legends to all of them\n3: Add all the generated images to the reports with proper explanation of them\n4: "
    ++ ittErrorLine ++ "\n5: " ++ ittReportLine test_folder ++
    ". The report has to explain with detail what the test is doing\n7: " ++
    ittSnippetLine ++ "\n8: " ++ ittFenceLine ++ "\n9: " ++ ittNoFenceLine ++
    "\n10: Only print errors that have affected the execution, nothing else\n11: If an error is caught, print the message\n"

/-- A test already saved to the backend (it has a `test_id`, results and
code from a successful execution): concrete instance for witnesses. -/
def savedTest : Test :=
  { id := 2
    test_id := some "t-42"
    title := "Backtest"
    description := "Compare predictions to history"
    prompt := "a prompt"
    results := some [{ filename := "report.md", content := "# Backtest" }]
    testCode := "print(1)"
    conversation := some { messages := [{ role := "user", content := "hi" }] }
    isProcessing := false
    error := "" }

/-- A saved test whose execute-test request is currently in flight
(`isProcessing = true`). -/
def processingSavedTest : Test :=
  { savedTest with id := 5, isProcessing := true }

/-- A stored test whose optional fields are all present and non-empty:
concrete instance for the load-mapping witness. -/
def storedSample : StoredTest :=
  { test_id := "t-7"
    title := some "Stability"
    description := some "Evaluate consistency over time"
    prompt := some "the prompt"
    results := some [{ filename := "report.md", content := "# Stability" }]
    code := some "print(2)"
    conversation := some { messages := [{ role := "assistant", content := "ok" }] } }

/-- The local-id invariant maintained by the `FormComponent` state: every
test id is below `nextTestId` and no two tests share an id. -/
def idsOk (s : TestListState) : Prop :=
  (∀ t ∈ s.tests, t.id < s.nextTestId) ∧
    s.tests.Pairwise (fun a b => a.id ≠ b.id)

theorem strOccurs_last (a n : String) : strOccurs n (a ++ n) :=
  ⟨a.data, [], by simp [String.data_append]⟩

theorem strOccurs_left {n a : String} (h : strOccurs n a) (b : String) :
    strOccurs n (a ++ b) := by
  obtain ⟨pre, suf, hp⟩ := h
  exact ⟨pre, suf ++ b.data, by simp [String.data_append, hp]⟩

/-- C7: for every choice of documentation, code, artifact paths, test
title, description and test folder, the rendered
`independent_test_template` contains the instructions to put all code
between one pair of ```python fences and never use ``` inside the code,
to keep all code in a single snippet, to create the designated output
folder and save all outputs there, to handle errors without interrupting
execution, and to save a markdown report named report.md inside that
folder. -/
theorem c7_template_instructions (documentation code train test pickle
    test_title test_description test_folder : String) :
    strOccurs ittFenceLine (independent_test_template documentation code
      train test pickle test_title test_description test_folder) ∧
    strOccurs ittNoFenceLine (independent_test_template documentation code
      train test pickle test_title test_description test_folder) ∧
    strOccurs ittSnippetLine (independent_test_template documentation code
      train test pickle test_title test_description test_folder) ∧
    strOccurs (ittFolderLine test_folder) (independent_test_template
      documentation code train test pickle test_title test_description
      test_folder) ∧
    strOccurs ittErrorLine (independent_test_template documentation code
      train test pickle test_title test_description test_folder) ∧
    strOccurs (ittReportLine test_folder) (independent_test_template
      documentation code train test pickle test_title test_description
      test_folder) := by
  refine ⟨?_, ?_, ?_, ?_, ?_, ?_⟩ <;> unfold independent_test_template
  · iterate 3 apply strOccurs_left
    exact strOccurs_last _ _
  · iterate 1 apply strOccurs_left
    exact strOccurs_last _ _
  · iterate 5 apply strOccurs_left
    exact strOccurs_last _ _
  · iterate 13 apply strOccurs_left
    exact strOccurs_last _ _
  · iterate 9 apply strOccurs_left
    exact strOccurs_last _ _
  · iterate 7 apply strOccurs_left
    exact strOccurs_last _ _

/-- C1 counterexample: `freshTest` has no backend-assigned `test_id`, yet
the execute-test request body built for its initial submission carries
`test_id` (the local id `3` supplied by `test.test_id || testId`), so an
initial submission does not omit `test_id`. -/
theorem c1_counterexample :
    freshTest.test_id = none ∧
    (buildExecuteTestRequest "v-1" freshTest none).test_id = "3" ∧
    (buildExecuteTestRequest "v-1" freshTest none).description =
      some "Check data quality of the inputs" := by
  decide

/-- C1 amended: every execute-test request includes `test_id` — for a test
with no backend id it is the local id, together with the description; for
a backend-saved test the description is omitted; `follow_up_message` is
included exactly when a non-empty follow-up is provided, so a body with
`test_id` but neither description nor follow-up is what a saved test's
re-run sends. -/
theorem c1_execute_request_shape (v : String) (t : Test)
    (fu : Option String) :
    (t.test_id = none →
      (buildExecuteTestRequest v t fu).test_id = toString t.id ∧
      (buildExecuteTestRequest v t fu).description = some t.description) ∧
    (∀ s, t.test_id = some s → s ≠ "" →
      (buildExecuteTestRequest v t fu).description = none) ∧
    (∀ m, fu = some m → m ≠ "" →
      (buildExecuteTestRequest v t fu).follow_up_message = some m) ∧
    (fu = none → (buildExecuteTestRequest v t fu).follow_up_message = none) := by
  refine ⟨fun h => ?_, fun s hs hne => ?_, fun m hm hne => ?_, fun h => ?_⟩
  · simp [buildExecuteTestRequest, jsTruthy, jsOr, h]
  · simp [buildExecuteTestRequest, jsTruthy, hs, hne]
  · simp [buildExecuteTestRequest, jsTruthy, hm, hne]
  · simp [buildExecuteTestRequest, jsTruthy, h]

/-- C1 witness: the amended behaviour at the concrete `freshTest` and
`savedTest` instances. -/
theorem c1_execute_request_shape_witness :
    (buildExecuteTestRequest "v-1" freshTest none).test_id = "3" ∧
    (buildExecuteTestRequest "v-1" savedTest (some "refine")).description =
      none ∧
    (buildExecuteTestRequest "v-1" savedTest
      (some "refine")).follow_up_message = some "refine" ∧
    (buildExecuteTestRequest "v-1" savedTest none).follow_up_message =
      none := by
  refine ⟨?_, ?_, ?_, ?_⟩
  · have h := ((c1_execute_request_shape "v-1" freshTest none).1 rfl).1
    rw [h]; decide
  · exact (c1_execute_request_shape "v-1" savedTest (some "refine")).2.1
      "t-42" rfl (by decide)
  · exact (c1_execute_request_shape "v-1" savedTest (some "refine")).2.2.1
      "refine" rfl (by decide)
  · exact (c1_execute_request_shape "v-1" savedTest none).2.2.2 rfl

/-- C3: once a validation id is assigned, the five artifact file inputs
(button and underlying input element alike) and the create-validation
submit button are all rendered disabled, regardless of `isCreating`. -/
theorem c3_artifact_inputs_locked (validationId : Option String)
    (isCreating : Bool) (v : String) (hv : validationId = some v)
    (hne : v ≠ "") :
    renderMainForm validationId isCreating =
      { documentationInput := { buttonDisabled := true, inputDisabled := true }
        trainingScriptInput := { buttonDisabled := true, inputDisabled := true }
        trainedModelInput := { buttonDisabled := true, inputDisabled := true }
        trainingDatasetInput := { buttonDisabled := true, inputDisabled := true }
        testDatasetInput := { buttonDisabled := true, inputDisabled := true }
        submitDisabled := true } := by
  subst hv
  simp [renderMainForm, renderFileInput, jsTruthy, hne]

/-- C3 witness: the lock at the concrete validation id `"val-1"`. -/
theorem c3_artifact_inputs_locked_witness :
    renderMainForm (some "val-1") false =
      { documentationInput := { buttonDisabled := true, inputDisabled := true }
        trainingScriptInput := { buttonDisabled := true, inputDisabled := true }
        trainedModelInput := { buttonDisabled := true, inputDisabled := true }
        trainingDatasetInput := { buttonDisabled := true, inputDisabled := true }
        testDatasetInput := { buttonDisabled := true, inputDisabled := true }
        submitDisabled := true } :=
  c3_artifact_inputs_locked (some "val-1") false "val-1" rfl (by decide)

/-- C6 counterexample: with an execute-test request in flight for
`processingSavedTest` (`isProcessing = true`) and the follow-up form idle
(`submitting = false`), the Send Follow-up control is NOT disabled once a
non-empty message is typed — a second submission for the same test can be
initiated while the first is in flight, contradicting the claim. -/
theorem c6_counterexample :
    processingSavedTest.isProcessing = true ∧
    runTestButtonDisabled processingSavedTest = true ∧
    followUpSubmitDisabled "please refine the test" false = false := by
  decide

/-- C6 amended: the Run Test button is disabled whenever the test's
`isProcessing` flag is set, and the Send Follow-up control is disabled
whenever the follow-up form's own `submitting` flag is set; but the
follow-up control is not tied to `isProcessing`, so only re-running via
Run Test and double-submitting the follow-up form itself are prevented. -/
theorem c6_in_flight_controls (t : Test) (m : String) (s : Bool) :
    (t.isProcessing = true → runTestButtonDisabled t = true) ∧
    (s = true → followUpSubmitDisabled m s = true) := by
  constructor
  · intro h; simp [runTestButtonDisabled, h]
  · intro h; simp [followUpSubmitDisabled, h]

/-- C6 witness: the amended disabling at concrete inputs. -/
theorem c6_in_flight_controls_witness :
    runTestButtonDisabled processingSavedTest = true ∧
    followUpSubmitDisabled "anything" true = true :=
  ⟨(c6_in_flight_controls processingSavedTest "anything" true).1 rfl,
   (c6_in_flight_controls processingSavedTest "anything" true).2 rfl⟩

/-- C10: `TestConversation.handleSubmit` sends a follow-up only if the
trimmed message is non-empty (a whitespace-only message sends nothing and
leaves the form untouched); what is sent is the trimmed message; the
input is cleared exactly on success and preserved verbatim on failure,
and `submitting` is cleared either way. -/
theorem c10_follow_up_submit (st : FollowUpFormState) :
    (jsTrim st.followUpMessage = "" →
      handleFollowUpSubmit st true = (none, st) ∧
      handleFollowUpSubmit st false = (none, st)) ∧
    (jsTrim st.followUpMessage ≠ "" →
      (handleFollowUpSubmit st true).1 = some (jsTrim st.followUpMessage) ∧
      (handleFollowUpSubmit st false).1 = some (jsTrim st.followUpMessage) ∧
      (handleFollowUpSubmit st true).2.followUpMessage = "" ∧
      (handleFollowUpSubmit st false).2.followUpMessage =
        st.followUpMessage ∧
      (handleFollowUpSubmit st true).2.submitting = false ∧
      (handleFollowUpSubmit st false).2.submitting = false) := by
  constructor
  · intro h
    constructor <;> simp [handleFollowUpSubmit, h]
  · intro h
    refine ⟨?_, ?_, ?_, ?_, ?_, ?_⟩ <;> simp [handleFollowUpSubmit, h]

/-- C10 witness: a whitespace-only message sends nothing; a padded message
is sent trimmed, cleared on success and preserved on failure. -/
theorem c10_follow_up_submit_witness :
    handleFollowUpSubmit { followUpMessage := "   ", submitting := false }
      true = (none, { followUpMessage := "   ", submitting := false }) ∧
    (handleFollowUpSubmit
      { followUpMessage := "  fix the chart  ", submitting := false }
      true).1 = some "fix the chart" ∧
    (handleFollowUpSubmit
      { followUpMessage := "  fix the chart  ", submitting := false }
      false).2.followUpMessage = "  fix the chart  " := by
  refine ⟨?_, ?_, ?_⟩
  · exact ((c10_follow_up_submit
      { followUpMessage := "   ", submitting := false }).1 (by decide)).1
  · have h := ((c10_follow_up_submit
      { followUpMessage := "  fix the chart  ", submitting := false }).2
      (by decide)).1
    rw [h]; decide
  · exact ((c10_follow_up_submit
      { followUpMessage := "  fix the chart  ", submitting := false }).2
      (by decide)).2.2.2.1

theorem mem_zip_map {α β : Type} (f : α → β) {l : List α} {pr : α × β}
    (h : pr ∈ l.zip (l.map f)) : pr.2 = f pr.1 := by
  induction l with
  | nil => simp at h
  | cons x xs ih =>
      rw [List.map_cons, List.zip_cons_cons, List.mem_cons] at h
      rcases h with h | h
      · simp [h]
      · exact ih h

theorem handleTestSubmitFailed_eq_map (tests : List Test) (tid : Nat)
    (msg : String) :
    handleTestSubmitFailed tests tid msg =
      tests.map (fun t => errorStep tid msg (startStep tid t)) := by
  simp [handleTestSubmitFailed, applyTestError, applyTestStart,
    List.map_map, Function.comp]

theorem handleTestSubmitOk_eq_map (tests : List Test) (tid : Nat)
    (r : ExecResult) :
    handleTestSubmitOk tests tid r =
      tests.map (fun t => successStep tid r (startStep tid t)) := by
  simp [handleTestSubmitOk, applyTestSuccess, applyTestStart,
    List.map_map, Function.comp]

/-- C2: a failed `handleTestSubmit` (start update followed by the catch
update) leaves the submitted test's `results`, `testCode`, `conversation`
— and its `test_id`, `title`, `description` and `prompt` — exactly as they
were; it only records the error message and clears `isProcessing`. -/
theorem c2_failed_submit_preserves_state (tests : List Test) (tid : Nat)
    (msg : String) (pr : Test × Test)
    (hmem : pr ∈ tests.zip (handleTestSubmitFailed tests tid msg))
    (hid : pr.1.id = tid) :
    pr.2.results = pr.1.results ∧
    pr.2.testCode = pr.1.testCode ∧
    pr.2.conversation = pr.1.conversation ∧
    pr.2.test_id = pr.1.test_id ∧
    pr.2.title = pr.1.title ∧
    pr.2.description = pr.1.description ∧
    pr.2.prompt = pr.1.prompt ∧
    pr.2.error = msg ∧
    pr.2.isProcessing = false := by
  rw [handleTestSubmitFailed_eq_map] at hmem
  have h2 := mem_zip_map _ hmem
  rw [h2]
  simp [startStep, errorStep, hid]

/-- C2 witness: the failed flow at the concrete `savedTest`. -/
theorem c2_failed_submit_preserves_state_witness :
    (({ savedTest with error := "HTTP error! status: 500" } : Test).results =
      savedTest.results) ∧
    (({ savedTest with error := "HTTP error! status: 500" } : Test).testCode =
      savedTest.testCode) ∧
    (({ savedTest with error := "HTTP error! status: 500" } : Test).error =
      "HTTP error! status: 500") := by
  have h := c2_failed_submit_preserves_state [savedTest] 2
    "HTTP error! status: 500"
    (savedTest, { savedTest with error := "HTTP error! status: 500" })
    (by decide) (by decide)
  exact ⟨h.1, h.2.1, h.2.2.2.2.2.2.2.1⟩

/-- C5: an execute-test submission for one test — whether it succeeds or
fails — never changes any entry of `customTests` whose local id differs
from the submitted id: the positionally corresponding entry after the
update is the very same record. -/
theorem c5_submit_frames_other_tests (tests : List Test) (tid : Nat)
    (r : ExecResult) (msg : String) (pr : Test × Test)
    (hmem : pr ∈ tests.zip (handleTestSubmitOk tests tid r) ∨
      pr ∈ tests.zip (handleTestSubmitFailed tests tid msg))
    (hid : pr.1.id ≠ tid) : pr.2 = pr.1 := by
  rcases hmem with h | h
  · rw [handleTestSubmitOk_eq_map] at h
    have h2 := mem_zip_map _ h
    rw [h2]
    simp [startStep, successStep, hid]
  · rw [handleTestSubmitFailed_eq_map] at h
    have h2 := mem_zip_map _ h
    rw [h2]
    simp [startStep, errorStep, hid]

/-- C5 witness: submitting test 2 leaves `freshTest` (id 3) untouched on
both the success and the failure path. -/
theorem c5_submit_frames_other_tests_witness :
    freshTest = freshTest ∧ freshTest.id ≠ 2 :=
  ⟨c5_submit_frames_other_tests [savedTest, freshTest] 2
      { test_id := "t-42", results := [], testCode := "x",
        conversation := { messages := [] } }
      "boom" (freshTest, freshTest) (Or.inl (by decide)) (by decide),
   by decide⟩

/-- C8: deleting a saved test targets `DELETE /test/{validation_id}/{test_id}`;
exactly on an ok response the test (every entry carrying that backend id)
is removed while every other entry survives unchanged and a status message
is shown; on a non-ok response the list is untouched and an error is
shown. -/
theorem c8_delete_test (tests : List Test) (vid tid : String) (ok : Bool)
    (httpStatus : Nat) :
    deleteTestUrl vid tid = "/test/" ++ vid ++ "/" ++ tid ∧
    (ok = true →
      (∀ t, t ∈ tests → t.test_id ≠ some tid →
        t ∈ (handleDeleteTest tests tid ok httpStatus).tests) ∧
      (∀ t, t ∈ (handleDeleteTest tests tid ok httpStatus).tests →
        t ∈ tests ∧ t.test_id ≠ some tid) ∧
      (handleDeleteTest tests tid ok httpStatus).status =
        some "Test deleted successfully" ∧
      (handleDeleteTest tests tid ok httpStatus).error = none) ∧
    (ok = false →
      (handleDeleteTest tests tid ok httpStatus).tests = tests ∧
      (handleDeleteTest tests tid ok httpStatus).status = none ∧
      (handleDeleteTest tests tid ok httpStatus).error =
        some ("Error deleting test: HTTP error! status: " ++
          toString httpStatus)) := by
  refine ⟨rfl, fun hok => ?_, fun hko => ?_⟩
  · subst hok
    have hts : (handleDeleteTest tests tid true httpStatus).tests =
        tests.filter (fun t => t.test_id ≠ some tid) := rfl
    refine ⟨fun t ht hne => ?_, fun t ht => ?_, rfl, rfl⟩
    · rw [hts, List.mem_filter]
      exact ⟨ht, by simpa using hne⟩
    · rw [hts, List.mem_filter] at ht
      exact ⟨ht.1, by simpa using ht.2⟩
  · subst hko
    exact ⟨rfl, rfl, rfl⟩

/-- C8 witness: deleting backend id `t-42` from a two-test list keeps the
unsaved `freshTest` and drops `savedTest`; a failed delete keeps the list. -/
theorem c8_delete_test_witness :
    freshTest ∈ (handleDeleteTest [savedTest, freshTest] "t-42" true 200).tests ∧
    (handleDeleteTest [savedTest, freshTest] "t-42" false 500).tests =
      [savedTest, freshTest] := by
  refine ⟨?_, ?_⟩
  · exact ((c8_delete_test [savedTest, freshTest] "v-1" "t-42" true 200).2.1
      rfl).1 freshTest (by decide) (by decide)
  · exact ((c8_delete_test [savedTest, freshTest] "v-1" "t-42" false 500).2.2
      rfl).1

theorem mapLoadedFrom_get? (l : List StoredTest) :
    ∀ (k i : Nat),
      (mapLoadedFrom k l).get? i = (l.get? i).map (mapLoadedTest (k + i)) := by
  induction l with
  | nil => intro k i; simp [mapLoadedFrom]
  | cons td rest ih =>
      intro k i
      cases i with
      | zero => simp [mapLoadedFrom]
      | succ j =>
          simp only [mapLoadedFrom, List.get?]
          rw [ih (k + 1) j]
          have hkj : k + 1 + j = k + (j + 1) := by omega
          rw [hkj]

/-- C4: loading a validation twice with identical backend responses
yields the same application state as loading it once (validation id,
execution id, file names, tests list and next local id); and each stored
test at position `i` is mapped, in order, to a display test with local id
`i + 1` carrying the stored `test_id` and — whenever present (non-empty
for the string fields) — the stored title, description, prompt, results,
code and conversation. -/
theorem c4_load_idempotent_and_ordered (s : AppState)
    (vr : LoadValidationResult) (stored : List StoredTest) :
    applyLoadValidation (applyLoadValidation s vr stored) vr stored =
      applyLoadValidation s vr stored ∧
    (∀ i td, stored.get? i = some td →
      ∃ t, (loadedTests stored).get? i = some t ∧
        t.id = i + 1 ∧
        t.test_id = some td.test_id ∧
        (∀ x, td.title = some x → x ≠ "" → t.title = x) ∧
        (∀ x, td.description = some x → x ≠ "" → t.description = x) ∧
        (∀ x, td.prompt = some x → x ≠ "" → t.prompt = x) ∧
        (∀ rs, td.results = some rs → t.results = some rs) ∧
        (∀ x, td.code = some x → x ≠ "" → t.testCode = x) ∧
        (∀ c, td.conversation = some c → t.conversation = some c)) := by
  constructor
  · by_cases h : stored.length > 0 <;>
      simp [applyLoadValidation, h]
  · intro i td htd
    refine ⟨mapLoadedTest i td, ?_, rfl, rfl, ?_, ?_, ?_, ?_, ?_, ?_⟩
    · rw [loadedTests, mapLoadedFrom_get? stored 0 i, htd]
      simp
    · intro x hx hne
      simp [mapLoadedTest, jsOr, hx, hne]
    · intro x hx hne
      simp [mapLoadedTest, jsOr, hx, hne]
    · intro x hx hne
      simp [mapLoadedTest, jsOr, hx, hne]
    · intro rs hrs
      simp [mapLoadedTest, hrs]
    · intro x hx hne
      simp [mapLoadedTest, jsOr, hx, hne]
    · intro c hc
      simp [mapLoadedTest, hc]

/-- C4 witness: loading `[storedSample]` twice equals loading it once, and
the single stored test maps to local id 1 carrying its stored fields. -/
theorem c4_load_idempotent_and_ordered_witness :
    applyLoadValidation (applyLoadValidation
        { validationId := none, executionId := none,
          fileNames := emptyFileNames, customTests := [], nextTestId := 1 }
        { validation_id := "v-9", execution_id := "e-9", files := none }
        [storedSample])
      { validation_id := "v-9", execution_id := "e-9", files := none }
      [storedSample] =
    applyLoadValidation
      { validationId := none, executionId := none,
        fileNames := emptyFileNames, customTests := [], nextTestId := 1 }
      { validation_id := "v-9", execution_id := "e-9", files := none }
      [storedSample] ∧
    (∃ t, (loadedTests [storedSample]).get? 0 = some t ∧
      t.id = 1 ∧ t.test_id = some "t-7" ∧ t.title = "Stability") := by
  have h := c4_load_idempotent_and_ordered
    { validationId := none, executionId := none,
      fileNames := emptyFileNames, customTests := [], nextTestId := 1 }
    { validation_id := "v-9", execution_id := "e-9", files := none }
    [storedSample]
  refine ⟨h.1, ?_⟩
  obtain ⟨t, hget, hid, htid, htitle, -⟩ := h.2 0 storedSample rfl
  exact ⟨t, hget, hid, htid, htitle "Stability" rfl (by decide)⟩

theorem mem_maxLoadedId {t : Test} :
    ∀ {ts : List Test}, t ∈ ts → t.id ≤ maxLoadedId ts := by
  intro ts
  induction ts with
  | nil => intro h; simp at h
  | cons x xs ih =>
      intro h
      rcases List.mem_cons.mp h with h | h
      · subst h
        exact le_max_left _ _
      · exact le_trans (ih h) (le_max_right _ _)

theorem mapLoadedFrom_id_lb {t : Test} :
    ∀ (l : List StoredTest) (i : Nat), t ∈ mapLoadedFrom i l → i < t.id := by
  intro l
  induction l with
  | nil => intro i h; simp [mapLoadedFrom] at h
  | cons td rest ih =>
      intro i h
      rcases List.mem_cons.mp h with h | h
      · subst h
        simp [mapLoadedTest]
      · exact Nat.lt_of_succ_lt (ih (i + 1) h)

theorem pairwise_mapLoadedFrom :
    ∀ (l : List StoredTest) (i : Nat),
      (mapLoadedFrom i l).Pairwise (fun a b => a.id ≠ b.id) := by
  intro l
  induction l with
  | nil => intro i; simp [mapLoadedFrom]
  | cons td rest ih =>
      intro i
      refine List.Pairwise.cons (fun b hb => ?_) (ih (i + 1))
      have hlb := mapLoadedFrom_id_lb rest (i + 1) hb
      simp only [mapLoadedTest]
      omega

theorem startStep_id (tid : Nat) (t : Test) : (startStep tid t).id = t.id := by
  unfold startStep
  split <;> rfl

theorem successStep_id (tid : Nat) (r : ExecResult) (t : Test) :
    (successStep tid r t).id = t.id := by
  unfold successStep
  split <;> rfl

theorem errorStep_id (tid : Nat) (msg : String) (t : Test) :
    (errorStep tid msg t).id = t.id := by
  unfold errorStep
  split <;> rfl

theorem titleStep_id (tid : Nat) (v : String) (t : Test) :
    (titleStep tid v t).id = t.id := by
  unfold titleStep
  split <;> rfl

theorem descriptionStep_id (tid : Nat) (v : String) (t : Test) :
    (descriptionStep tid v t).id = t.id := by
  unfold descriptionStep
  split <;> rfl

theorem idsOk_map {ts : List Test} {n : Nat} (f : Test → Test)
    (hf : ∀ t, (f t).id = t.id) (h : idsOk ⟨ts, n⟩) :
    idsOk ⟨ts.map f, n⟩ := by
  obtain ⟨hb, hp⟩ := h
  constructor
  · intro t ht
    obtain ⟨a, ha, rfl⟩ := List.mem_map.mp ht
    rw [hf]
    exact hb a ha
  · rw [List.pairwise_map]
    exact hp.imp (fun hab => by simpa [hf] using hab)

theorem idsOk_filter {ts : List Test} {n : Nat} (p : Test → Bool)
    (h : idsOk ⟨ts, n⟩) : idsOk ⟨ts.filter p, n⟩ := by
  obtain ⟨hb, hp⟩ := h
  exact ⟨fun t ht => hb t (List.mem_of_mem_filter ht),
    hp.sublist (List.filter_sublist ts)⟩

theorem reachable_idsOk {s : TestListState} (h : Reachable s) : idsOk s := by
  induction h with
  | init => exact ⟨by simp, by simp⟩
  | step _ hstep ih =>
      cases hstep with
      | addCustomTest =>
          obtain ⟨hb, hp⟩ := ih
          constructor
          · intro t ht
            rcases List.mem_append.mp ht with ht | ht
            · exact Nat.lt_succ_of_lt (hb t ht)
            · rcases List.mem_singleton.mp ht with rfl
              simp [newCustomTest]
          · rw [List.pairwise_append]
            refine ⟨hp, List.pairwise_singleton _ _, fun a ha b hb2 => ?_⟩
            rcases List.mem_singleton.mp hb2 with rfl
            have := hb a ha
            simp only [newCustomTest]
            omega
      | loadValidation stored hne =>
          constructor
          · intro t ht
            exact Nat.lt_succ_of_le (mem_maxLoadedId ht)
          · exact pairwise_mapLoadedFrom stored 0
      | loadValidationEmpty => exact ih
      | deleteUnsaved tid => exact idsOk_filter _ ih
      | deleteSaved tid => exact idsOk_filter _ ih
      | submitStart tid => exact idsOk_map _ (startStep_id tid) ih
      | submitSuccess tid r => exact idsOk_map _ (successStep_id tid r) ih
      | submitError tid msg => exact idsOk_map _ (errorStep_id tid msg) ih
      | titleChange tid v => exact idsOk_map _ (titleStep_id tid v) ih
      | descriptionChange tid v =>
          exact idsOk_map _ (descriptionStep_id tid v) ih

/-- C9: in every reachable `(customTests, nextTestId)` state — reachable
through adding custom tests, loading a validation, deleting tests,
submitting tests and editing titles/descriptions — no two tests in the
list share a local id. -/
theorem c9_local_ids_unique (s : TestListState) (h : Reachable s) :
    s.tests.Pairwise (fun a b => a.id ≠ b.id) :=
  (reachable_idsOk h).2

/-- C9 witness: the state after adding two custom tests is reachable and
its two tests have distinct local ids. -/
theorem c9_local_ids_unique_witness :
    ([newCustomTest 1, newCustomTest 2] : List Test).Pairwise
      (fun a b => a.id ≠ b.id) :=
  c9_local_ids_unique ⟨[newCustomTest 1, newCustomTest 2], 3⟩
    (Reachable.step
      (Reachable.step Reachable.init (Step.addCustomTest ⟨[], 1⟩))
      (Step.addCustomTest ⟨[newCustomTest 1], 2⟩))

end Valyq
